import Mathlib

/-!
Shallow embedding of the web_AR repository: three near-duplicate React
components that render a 3D object into an immersive-AR view.

The repository has three variants of the component:
- `ARViewer`  embeds src/src/components/ARViewer.tsx, the main component
  with React state isARSupported / isARSessionActive / isObjectPlaced,
  a flag-guarded select handler, a capability probe, a session starter,
  an animation loop, a resize handler, an effect cleanup and conditional JSX.
- `ARViewerB` embeds src/unnamed/part_001, the variant with a local
  objectPlaced variable, whose session end listener resets only the
  session-active flag.
- `ARShoeApp` embeds src/unnamed/part_000, the hit-test variant whose
  select listener places OR MOVES the model on every valid hit-test pose.

State updates are modelled by explicit state passing: each handler is a
function from the component state (React state, refs and scene-graph
facts visible to the handlers) to the new state.  Asynchronous
settlements (capability query, session request) are modelled as explicit
outcome values handed to the handler.  Positions are integer triples
(the translation component of a matrix or pose); rotation angles are
rationals, with the per-frame increment 0.01 embedded as 1/100.
-/

/-- A 3-D position: the translation component of a matrix or pose. -/
structure Vec3 where
  x : Int
  y : Int
  z : Int
deriving DecidableEq, Repr

/-- The origin, the position of a freshly constructed mesh. -/
def Vec3.zero : Vec3 := ⟨0, 0, 0⟩

/-- What the conditional JSX of a component shows: the red unsupported
banner, the Start AR button, and the tap-to-place hint. -/
structure UIView where
  showUnsupportedBanner : Bool
  showStartButton : Bool
  showTapHint : Bool
deriving DecidableEq, Repr

/-- Settlement of the asynchronous isSessionSupported query: the promise
resolves with a boolean, or it rejects. -/
inductive ProbeOutcome where
  | resolved (supported : Bool)
  | rejected
deriving DecidableEq, Repr

/-- Settlement of the asynchronous requestSession / setSession sequence
inside the try block of startARSession. -/
inductive SessionOutcome where
  | success
  | failure
deriving DecidableEq, Repr

/-- The individual side-effecting actions a teardown (effect cleanup)
closure performs, in the order the code runs them. -/
inductive TeardownStep where
  | disposeRenderer
  | disposeGeometry
  | disposeMaterial
  | removeDomElement
  | removeResizeListener
  | clearAnimationLoop
  | endXRSession
deriving DecidableEq, Repr

namespace ARViewer

/-- Component state of src/src/components/ARViewer.tsx: the three React
state booleans, the scene-graph facts the handlers mutate (whether the
object mesh was added to the scene, its position, its two rotation
angles), the camera and renderer configuration the resize handler and
the session starter mutate, and the nullability of the refs the handlers
guard on (a ...Ok field is true when the corresponding ref holds a
non-null value). -/
structure State where
  isARSupported : Bool
  isARSessionActive : Bool
  isObjectPlaced : Bool
  sceneHasObject : Bool
  objectPos : Vec3
  rotX : Rat
  rotY : Rat
  cameraAspect : Rat
  cameraProjAspect : Rat
  rendererW : Rat
  rendererH : Rat
  xrEnabled : Bool
  refSpaceLocal : Bool
  controllerListening : Bool
  sceneHasController : Bool
  containerOk : Bool
  sceneOk : Bool
  cameraOk : Bool
  rendererOk : Bool
  objectOk : Bool
deriving DecidableEq, Repr

/-- The state right after mount and scene bootstrap: the useState
initialisers (true, false, false), a fresh unrotated mesh at the origin
not yet added to the scene, and all refs populated by initializeScene.
Viewport dimensions are abstracted to 1. -/
def initState : State :=
  { isARSupported := true
  , isARSessionActive := false
  , isObjectPlaced := false
  , sceneHasObject := false
  , objectPos := Vec3.zero
  , rotX := 0
  , rotY := 0
  , cameraAspect := 1
  , cameraProjAspect := 1
  , rendererW := 1
  , rendererH := 1
  , xrEnabled := false
  , refSpaceLocal := false
  , controllerListening := false
  , sceneHasController := false
  , containerOk := true
  , sceneOk := true
  , cameraOk := true
  , rendererOk := true
  , objectOk := true }

/-- A select event as handleSelect sees it: whether controllerRef.current
is non-null at event time, and the translation component of
controller.matrixWorld at that moment. -/
structure SelectEvent where
  controllerOk : Bool
  controllerPos : Vec3
deriving DecidableEq, Repr

/-- One invocation of the handleSelect callback body, ARViewer.tsx lines
86-99: if the isObjectPlaced value captured by the useCallback closure
is false and objectRef, controllerRef and sceneRef are all non-null, add
the object to the scene, set its position from the controller world
matrix, and set isObjectPlaced; otherwise do nothing.  Here
s.isObjectPlaced plays the role of the captured value for this single
call; see registeredSelect for how the listener actually registered on
the controller captures it across a whole session. -/
def handleSelect (s : State) (e : SelectEvent) : State :=
  if !s.isObjectPlaced && s.objectOk && e.controllerOk && s.sceneOk then
    { s with sceneHasObject := true
           , objectPos := e.controllerPos
           , isObjectPlaced := true }
  else s

/-- Instrumented placement state: the component state plus counts of the
two side effects of handleSelect, scene.add calls and position
assignments. -/
structure PlaceTrace where
  state : State
  adds : Nat
  assigns : Nat
deriving DecidableEq, Repr

/-- The select listener as actually registered on the controller at
ARViewer.tsx line 119, with effect counting.  handleSelect is a
useCallback closure over the React state isObjectPlaced; it is
registered exactly once, at session start, and never removed or
re-registered (the only removeEventListener in the file is for resize),
so the listener the controller keeps dispatching to permanently holds
the isObjectPlaced value from registration time (capturedPlaced), while
the refs are read live through .current.  When the guard passes, the
listener re-adds the object to the scene (scene membership stays a
single copy), reassigns its position from the current controller world
matrix, and calls setIsObjectPlaced(true) — which updates the React
state field but never feeds back into this listener's captured
guard. -/
def registeredSelect (capturedPlaced : Bool) (t : PlaceTrace) (e : SelectEvent) : PlaceTrace :=
  if !capturedPlaced && t.state.objectOk && e.controllerOk && t.state.sceneOk then
    { state := { t.state with sceneHasObject := true
                            , objectPos := e.controllerPos
                            , isObjectPlaced := true }
    , adds := t.adds + 1
    , assigns := t.assigns + 1 }
  else t

/-- Deliver a sequence of select events within one session to the
registered listener, left to right.  The captured isObjectPlaced is
false for every event: that was its value at registration, right after
session start, and the registration is never refreshed. -/
def processSelects (t : PlaceTrace) (es : List SelectEvent) : PlaceTrace :=
  es.foldl (registeredSelect false) t

/-- The session end listener registered in startARSession, ARViewer.tsx
lines 125-128: reset both the session-active flag and the placement
flag. -/
def onSessionEnd (s : State) : State :=
  { s with isARSessionActive := false, isObjectPlaced := false }

/-- One run of the setAnimationLoop callback, ARViewer.tsx lines 140-149:
if the object is placed and objectRef is non-null, add 0.01 to the x and
y rotation; then render (a draw call, which mutates no component
state). -/
def animationFrame (s : State) : State :=
  if s.isObjectPlaced && s.objectOk then
    { s with rotX := s.rotX + 1 / 100, rotY := s.rotY + 1 / 100 }
  else s

/-- startARSession, ARViewer.tsx lines 102-133, as a function of the
settlement of its awaited calls.  On failure the catch block logs one
error message and sets the session-active flag false.  On success, if
rendererRef is null the function returns early with no state change;
otherwise it enables XR on the renderer, sets the local reference space,
registers the select listener on controller 0, adds the controller to
the scene when sceneRef is non-null, and sets the session-active flag.
The second component is the list of diagnostic log messages emitted, the
third the number of retries scheduled (the code schedules none). -/
def startARSession (s : State) (out : SessionOutcome) : State × List String × Nat :=
  match out with
  | .failure =>
      ({ s with isARSessionActive := false }, ["Error starting AR session:"], 0)
  | .success =>
      if s.rendererOk then
        ({ s with xrEnabled := true
                , refSpaceLocal := true
                , controllerListening := true
                , sceneHasController := s.sceneOk
                , isARSessionActive := true }, [], 0)
      else (s, [], 0)

/-- handleResize, ARViewer.tsx lines 153-163: if containerRef, cameraRef
and rendererRef are all non-null, set the camera aspect to width over
height, update the projection matrix, and set the renderer size;
otherwise do nothing. -/
def handleResize (s : State) (w h : Rat) : State :=
  if s.containerOk && s.cameraOk && s.rendererOk then
    { s with cameraAspect := w / h
           , cameraProjAspect := w / h
           , rendererW := w
           , rendererH := h }
  else s

/-- The capability probe effect, ARViewer.tsx lines 166-176, as a function
of whether navigator.xr exists and of the settlement of the
isSessionSupported promise.  First component: whether the asynchronous
query was awaited at all.  Second component: the resulting isARSupported
value (set false immediately when xr is absent; on resolution set to the
resolved boolean; on rejection set false). -/
def capabilityProbe (xrAvailable : Bool) (out : ProbeOutcome) : Bool × Bool :=
  if xrAvailable then
    match out with
    | .resolved b => (true, b)
    | .rejected => (true, false)
  else (false, false)

/-- The conditional JSX of ARViewer.tsx lines 196-215 as a function of
the three state booleans: the banner shows when unsupported, the start
button when inactive and supported, the tap hint when active and not
placed. -/
def render (supported active placed : Bool) : UIView :=
  { showUnsupportedBanner := !supported
  , showStartButton := !active && supported
  , showTapHint := active && !placed }

/-- The effect cleanup of ARViewer.tsx lines 184-189, in execution order:
first the closure returned by initializeScene (dispose renderer, dispose
geometry, dispose material, remove the canvas from the container), then
remove the resize listener, then setAnimationLoop(null), then end the
session. -/
def effectCleanup : List TeardownStep :=
  [ .disposeRenderer
  , .disposeGeometry
  , .disposeMaterial
  , .removeDomElement
  , .removeResizeListener
  , .clearAnimationLoop
  , .endXRSession ]

/-- The props of the component, ARViewer.tsx lines 5-9 with the defaults
of lines 18-22: an optional model path, an object colour defaulting to
the green hex string, and an object size defaulting to 0.1. -/
structure ARViewerProps where
  modelPath : Option String
  objectColor : String
  objectSize : Rat
deriving DecidableEq, Repr

/-- The observable behaviour of the component as a function of its props:
the geometry size and material colour handed to the mesh constructor,
the initial state, and every handler and the teardown sequence.  The
modelPath prop is destructured by the component but read nowhere. -/
structure Observables where
  geometrySize : Rat
  materialColor : String
  startState : State
  ui : Bool → Bool → Bool → UIView
  selectStep : State → SelectEvent → State
  frameStep : State → State
  resizeStep : State → Rat → Rat → State
  sessionEndStep : State → State
  probe : Bool → ProbeOutcome → Bool × Bool
  sessionStart : State → SessionOutcome → State × List String × Nat
  teardown : List TeardownStep

/-- Everything the component does, assembled from the embedded pieces.
Only objectColor and objectSize are consulted; modelPath is not. -/
def componentBehaviour (p : ARViewerProps) : Observables :=
  { geometrySize := p.objectSize
  , materialColor := p.objectColor
  , startState := initState
  , ui := render
  , selectStep := handleSelect
  , frameStep := animationFrame
  , resizeStep := handleResize
  , sessionEndStep := onSessionEnd
  , probe := capabilityProbe
  , sessionStart := startARSession
  , teardown := effectCleanup }

end ARViewer

namespace ARViewerB

/-- Component state of src/unnamed/part_001: the two React state
booleans, the effect-local objectPlaced variable, the cube scene-graph
facts, camera and renderer configuration, the session wiring, and
whether containerRef.current is non-null. -/
structure State where
  isARSupported : Bool
  isARSessionActive : Bool
  objectPlaced : Bool
  sceneHasCube : Bool
  cubePos : Vec3
  rotX : Rat
  rotY : Rat
  cameraAspect : Rat
  cameraProjAspect : Rat
  rendererW : Rat
  rendererH : Rat
  xrEnabled : Bool
  refSpaceLocal : Bool
  controllerListening : Bool
  sceneHasController : Bool
  containerOk : Bool
deriving DecidableEq, Repr

/-- The state right after mount and effect setup: useState(true) for
support, useState(false) for the active flag, objectPlaced initialised
false, a fresh cube at the origin not yet in the scene.  Viewport
dimensions are abstracted to 1. -/
def initState : State :=
  { isARSupported := true
  , isARSessionActive := false
  , objectPlaced := false
  , sceneHasCube := false
  , cubePos := Vec3.zero
  , rotX := 0
  , rotY := 0
  , cameraAspect := 1
  , cameraProjAspect := 1
  , rendererW := 1
  , rendererH := 1
  , xrEnabled := false
  , refSpaceLocal := false
  , controllerListening := false
  , sceneHasController := false
  , containerOk := true }

/-- A select event as onSelect sees it: the translation component of the
controller world matrix at event time (the controller is an effect-local
variable set at session start, so there is no null guard in the code). -/
structure SelectEvent where
  controllerPos : Vec3
deriving DecidableEq, Repr

/-- onSelect, part_001 lines 116-122: if the cube is not yet placed, add
it to the scene, set its position from the controller world matrix, and
set objectPlaced; otherwise do nothing. -/
def onSelect (s : State) (e : SelectEvent) : State :=
  if !s.objectPlaced then
    { s with sceneHasCube := true
           , cubePos := e.controllerPos
           , objectPlaced := true }
  else s

/-- Instrumented placement state for the part_001 variant: state plus
counts of scene.add calls and position assignments made by onSelect. -/
structure PlaceTrace where
  state : State
  adds : Nat
  assigns : Nat
deriving DecidableEq, Repr

/-- onSelect with effect counting: same branches as onSelect. -/
def onSelectT (t : PlaceTrace) (e : SelectEvent) : PlaceTrace :=
  if !t.state.objectPlaced then
    { state := { t.state with sceneHasCube := true
                            , cubePos := e.controllerPos
                            , objectPlaced := true }
    , adds := t.adds + 1
    , assigns := t.assigns + 1 }
  else t

/-- Deliver a sequence of select events to onSelect, left to right. -/
def processSelects (t : PlaceTrace) (es : List SelectEvent) : PlaceTrace :=
  es.foldl onSelectT t

/-- The session end listener registered in startARSession, part_001 lines
107-109: it resets only the session-active flag; the objectPlaced
variable is not touched anywhere in the listener. -/
def onSessionEnd (s : State) : State :=
  { s with isARSessionActive := false }

/-- One run of the setAnimationLoop callback, part_001 lines 125-131: if
the cube is placed, add 0.01 to the x and y rotation; then render. -/
def animationFrame (s : State) : State :=
  if s.objectPlaced then
    { s with rotX := s.rotX + 1 / 100, rotY := s.rotY + 1 / 100 }
  else s

/-- The effect-scoped startARSession, part_001 lines 87-114, as a
function of the settlement of its awaited calls.  On failure the catch
block logs one error message and sets the session-active flag false.  On
success it enables XR, sets the local reference space, registers the
select listener on controller 0, adds the controller to the scene, and
sets the session-active flag.  Second component: diagnostic log
messages; third: retries scheduled (none). -/
def startARSession (s : State) (out : SessionOutcome) : State × List String × Nat :=
  match out with
  | .failure =>
      ({ s with isARSessionActive := false }, ["Error starting AR session:"], 0)
  | .success =>
      ({ s with xrEnabled := true
              , refSpaceLocal := true
              , controllerListening := true
              , sceneHasController := true
              , isARSessionActive := true }, [], 0)

/-- handleResize, part_001 lines 134-140: if containerRef.current is
non-null, set the camera aspect to width over height, update the
projection matrix, and set the renderer size. -/
def handleResize (s : State) (w h : Rat) : State :=
  if s.containerOk then
    { s with cameraAspect := w / h
           , cameraProjAspect := w / h
           , rendererW := w
           , rendererH := h }
  else s

/-- The conditional JSX of part_001 lines 161-180 as a function of the
two React state booleans: the banner shows when unsupported, the start
button when inactive and supported, the tap hint whenever inactive. -/
def render (supported active : Bool) : UIView :=
  { showUnsupportedBanner := !supported
  , showStartButton := !active && supported
  , showTapHint := !active }

/-- The effect cleanup of part_001 lines 145-154, in execution order:
remove the resize listener, remove the canvas from the container,
setAnimationLoop(null), end the session.  The renderer is never
disposed in this variant. -/
def effectCleanup : List TeardownStep :=
  [ .removeResizeListener
  , .removeDomElement
  , .clearAnimationLoop
  , .endXRSession ]

/-- The props of the part_001 variant, lines 5-9: only the optional
model path, which the component destructures and never reads. -/
structure ARViewerProps where
  modelPath : Option String
deriving DecidableEq, Repr

/-- The observable behaviour of the part_001 variant as a function of
its props. -/
structure Observables where
  startState : State
  ui : Bool → Bool → UIView
  selectStep : State → SelectEvent → State
  frameStep : State → State
  resizeStep : State → Rat → Rat → State
  sessionEndStep : State → State
  sessionStart : State → SessionOutcome → State × List String × Nat
  teardown : List TeardownStep

/-- Everything the part_001 variant does, assembled from the embedded
pieces.  No field depends on the props at all. -/
def componentBehaviour (_p : ARViewerProps) : Observables :=
  { startState := initState
  , ui := render
  , selectStep := onSelect
  , frameStep := animationFrame
  , resizeStep := handleResize
  , sessionEndStep := onSessionEnd
  , sessionStart := startARSession
  , teardown := effectCleanup }

end ARViewerB

namespace ARShoeApp

/-- The useState initialiser of isARSupported in part_000 line 9. -/
def initialARSupported : Bool := false

/-- checkARSupport, part_000 lines 15-27, as a function of whether
navigator.xr exists, the settlement of the isSessionSupported promise,
and the supported-state value before the probe.  When xr is absent the
function does nothing and the state keeps its previous value; on
resolution the state is set to the double-negated resolved value; on
rejection the catch block only logs, leaving the state at its previous
value. -/
def checkARSupport (xrAvailable : Bool) (out : ProbeOutcome) (s0 : Bool) : Bool :=
  if xrAvailable then
    match out with
    | .resolved b => b
    | .rejected => s0
  else s0

/-- A select event as the part_000 select listener sees it: whether the
reference space is non-null, whether requestHitTestSource returned a
source, whether the event carries a frame, and the pose of the first
hit-test result (none when there are no results or getPose returns
null). -/
structure HitEvent where
  refSpaceOk : Bool
  hitSourceOk : Bool
  frameOk : Bool
  hitPose : Option Vec3
deriving DecidableEq, Repr

/-- The model scene-graph facts of part_000: the model position and
whether the model is a child of the scene. -/
structure ModelState where
  modelPos : Vec3
  sceneHasModel : Bool
deriving DecidableEq, Repr

/-- Instrumented model state: counts of scene.add calls and position
assignments made by the select listener. -/
structure HitTrace where
  state : ModelState
  adds : Nat
  assigns : Nat
deriving DecidableEq, Repr

/-- The select listener of part_000 lines 71-100, which the code comments
describe as place or move the model: whenever the reference space, hit
test source and frame are available and the first hit-test result has a
pose, set the model position to that pose and add the model to the
scene.  There is no placed flag: every valid select event assigns the
position again. -/
def onSelect (t : HitTrace) (e : HitEvent) : HitTrace :=
  if e.refSpaceOk && e.hitSourceOk && e.frameOk then
    match e.hitPose with
    | some p =>
        { state := { t.state with modelPos := p, sceneHasModel := true }
        , adds := t.adds + 1
        , assigns := t.assigns + 1 }
    | none => t
  else t

/-- Deliver a sequence of select events to the listener, left to right. -/
def processHits (t : HitTrace) (es : List HitEvent) : HitTrace :=
  es.foldl onSelect t

/-- The fresh model state: model at the origin, not in the scene, no
effects counted. -/
def initTrace : HitTrace :=
  { state := { modelPos := Vec3.zero, sceneHasModel := false }
  , adds := 0
  , assigns := 0 }

/-- The conditional JSX of part_000 lines 119-127: only the unsupported
banner is conditional; there is no start button and no tap hint in the
JSX. -/
def render (supported : Bool) : UIView :=
  { showUnsupportedBanner := !supported
  , showStartButton := false
  , showTapHint := false }

/-- The effect cleanup of part_000 lines 114-116: it only disposes the
renderer. -/
def effectCleanup : List TeardownStep :=
  [ .disposeRenderer ]

end ARShoeApp

namespace ARViewer

/-- Unfolding equation: delivering a nonempty event sequence first runs
the registered listener on the head event. -/
theorem processSelects_cons (t : PlaceTrace) (e : SelectEvent) (es : List SelectEvent) :
    processSelects t (e :: es) = processSelects (registeredSelect false t e) es := rfl

/-- Shape of a whole select-event sequence delivered to the registered
listener, starting from any state whose object and scene refs are
populated: since the captured isObjectPlaced is permanently false, the
guard passes at every event whose controller ref is non-null, so the
scene addition and the position assignment happen once per such event —
not once per session — and the final position is the position of the
last such event (each one overwrites the previous). -/
theorem processSelects_stale_spec (es : List SelectEvent) (t : PlaceTrace)
    (ho : t.state.objectOk = true)
    (hs : t.state.sceneOk = true) :
    (processSelects t es).adds
        = t.adds + es.countP (fun e => e.controllerOk) ∧
    (processSelects t es).assigns
        = t.assigns + es.countP (fun e => e.controllerOk) ∧
    (processSelects t es).state.objectPos
        = es.foldl (fun p e => if e.controllerOk then e.controllerPos else p)
            t.state.objectPos ∧
    (processSelects t es).state.isObjectPlaced
        = (t.state.isObjectPlaced || es.any (fun e => e.controllerOk)) ∧
    (processSelects t es).state.sceneHasObject
        = (t.state.sceneHasObject || es.any (fun e => e.controllerOk)) := by
  induction es generalizing t with
  | nil => simp [processSelects]
  | cons e es ih =>
      by_cases hc : e.controllerOk = true
      · have hstep : registeredSelect false t e
            = ⟨{ t.state with sceneHasObject := true
                            , objectPos := e.controllerPos
                            , isObjectPlaced := true }
              , t.adds + 1, t.assigns + 1⟩ := by
          simp [registeredSelect, ho, hs, hc]
        obtain ⟨h1, h2, h3, h4, h5⟩ :=
          ih ⟨{ t.state with sceneHasObject := true
                           , objectPos := e.controllerPos
                           , isObjectPlaced := true }
             , t.adds + 1, t.assigns + 1⟩ ho hs
        rw [processSelects_cons, hstep]
        refine ⟨?_, ?_, ?_, ?_, ?_⟩
        · rw [h1]; simp [List.countP_cons, hc]; omega
        · rw [h2]; simp [List.countP_cons, hc]; omega
        · rw [h3]; simp [hc]
        · rw [h4]; simp [hc]
        · rw [h5]; simp [hc]
      · have hstep : registeredSelect false t e = t := by
          simp [registeredSelect, hc]
        rw [processSelects_cons, hstep]
        obtain ⟨h1, h2, h3, h4, h5⟩ := ih t ho hs
        refine ⟨?_, ?_, ?_, ?_, ?_⟩
        · rw [h1]; simp [List.countP_cons, hc]
        · rw [h2]; simp [List.countP_cons, hc]
        · rw [h3]; simp [hc]
        · rw [h4]; simp [hc]
        · rw [h5]; simp [hc]

end ARViewer

namespace ARViewerB

/-- Unfolding equation: delivering a nonempty event sequence first runs
the handler on the head event. -/
theorem processSelectsB_cons (t : PlaceTrace) (e : SelectEvent) (es : List SelectEvent) :
    processSelects t (e :: es) = processSelects (onSelectT t e) es := rfl

/-- Once the cube is placed, delivering any further select events to
onSelect changes nothing. -/
theorem processSelectsB_of_placed (es : List SelectEvent) (t : PlaceTrace)
    (h : t.state.objectPlaced = true) : processSelects t es = t := by
  induction es generalizing t with
  | nil => rfl
  | cons e es ih =>
      have hstep : onSelectT t e = t := by
        simp [onSelectT, h]
      rw [processSelectsB_cons, hstep]
      exact ih t h

/-- Shape of a whole select-event sequence delivered to onSelect from an
unplaced state: the scene addition and the position assignment each
happen exactly once, at the very first event, and the final position is
the first event's controller position. -/
theorem processSelectsB_spec (es : List SelectEvent) (t : PlaceTrace)
    (hp : t.state.objectPlaced = false) :
    (processSelects t es).adds = t.adds + (if es.isEmpty then 0 else 1) ∧
    (processSelects t es).assigns = t.assigns + (if es.isEmpty then 0 else 1) ∧
    (processSelects t es).state.cubePos
        = (match es.head? with
           | some e => e.controllerPos
           | none => t.state.cubePos) ∧
    (processSelects t es).state.objectPlaced = !es.isEmpty := by
  cases es with
  | nil => simp [processSelects, hp]
  | cons e es =>
      have hstep : onSelectT t e
          = ⟨{ t.state with sceneHasCube := true
                          , cubePos := e.controllerPos
                          , objectPlaced := true }
            , t.adds + 1, t.assigns + 1⟩ := by
        simp [onSelectT, hp]
      have hrest : processSelects (onSelectT t e) es = onSelectT t e := by
        apply processSelectsB_of_placed
        rw [hstep]
      rw [processSelectsB_cons, hrest, hstep]
      simp

end ARViewerB

/-- Claim C1 counterexample: placement is not idempotent in two of the
three variants.  In the hit-test variant (src/unnamed/part_000) the
select listener has no placed flag, so two select events that both carry
a valid hit-test pose each assign the model position: the second event
is not a no-op — it moves the model — and the position is assigned
twice, not exactly once.  In ARViewer.tsx the select listener registered
on the controller is a useCallback closure permanently capturing
isObjectPlaced = false and is never re-registered, so two delivered
selects with the refs available likewise each assign the position and
the second one moves the object. -/
theorem claim1_counterexample :
    (ARShoeApp.processHits ARShoeApp.initTrace
        [⟨true, true, true, some ⟨1, 2, 3⟩⟩, ⟨true, true, true, some ⟨4, 5, 6⟩⟩]).assigns = 2 ∧
    (ARShoeApp.processHits ARShoeApp.initTrace
        [⟨true, true, true, some ⟨1, 2, 3⟩⟩, ⟨true, true, true, some ⟨4, 5, 6⟩⟩]).state.modelPos
      = ⟨4, 5, 6⟩ ∧
    (ARShoeApp.processHits ARShoeApp.initTrace
        [⟨true, true, true, some ⟨1, 2, 3⟩⟩]).state.modelPos = ⟨1, 2, 3⟩ ∧
    (ARViewer.processSelects ⟨ARViewer.initState, 0, 0⟩
        [⟨true, ⟨1, 2, 3⟩⟩, ⟨true, ⟨4, 5, 6⟩⟩]).assigns = 2 ∧
    (ARViewer.processSelects ⟨ARViewer.initState, 0, 0⟩
        [⟨true, ⟨1, 2, 3⟩⟩, ⟨true, ⟨4, 5, 6⟩⟩]).state.objectPos = ⟨4, 5, 6⟩ ∧
    (ARViewer.processSelects ⟨ARViewer.initState, 0, 0⟩
        [⟨true, ⟨1, 2, 3⟩⟩]).state.objectPos = ⟨1, 2, 3⟩ := by
  decide

/-- Claim C1 (amended): only the part_001 variant is idempotent: there
the onSelect closure reads the live effect-local objectPlaced variable,
so for any sequence of select events in one session the cube is added to
the scene and its position assigned exactly once, at the first event,
and every later event is a no-op.  In ARViewer.tsx the listener
registered once per session at line 119 permanently captures
isObjectPlaced = false (setIsObjectPlaced never feeds back into it, and
it is never re-registered), so every delivered select event with the
object, controller and scene refs available re-adds the object and
reassigns its position from the current controller transform —
place-or-move, one addition and one assignment per such event, the last
one winning — though the scene never holds more than one copy of the
object.  In the part_000 hit-test variant every select event with a
valid hit-test pose likewise reassigns the model position (see the
counterexample). -/
theorem claim1_amended_placement :
    (∀ es : List ARViewer.SelectEvent,
      (ARViewer.processSelects ⟨ARViewer.initState, 0, 0⟩ es).adds
          = es.countP (fun e => e.controllerOk) ∧
      (ARViewer.processSelects ⟨ARViewer.initState, 0, 0⟩ es).assigns
          = es.countP (fun e => e.controllerOk) ∧
      (ARViewer.processSelects ⟨ARViewer.initState, 0, 0⟩ es).state.objectPos
          = es.foldl (fun p e => if e.controllerOk then e.controllerPos else p) Vec3.zero ∧
      (ARViewer.processSelects ⟨ARViewer.initState, 0, 0⟩ es).state.isObjectPlaced
          = es.any (fun e => e.controllerOk) ∧
      (ARViewer.processSelects ⟨ARViewer.initState, 0, 0⟩ es).state.sceneHasObject
          = es.any (fun e => e.controllerOk)) ∧
    (∀ es : List ARViewerB.SelectEvent,
      (ARViewerB.processSelects ⟨ARViewerB.initState, 0, 0⟩ es).adds
          = (if es.isEmpty then 0 else 1) ∧
      (ARViewerB.processSelects ⟨ARViewerB.initState, 0, 0⟩ es).assigns
          = (if es.isEmpty then 0 else 1) ∧
      (ARViewerB.processSelects ⟨ARViewerB.initState, 0, 0⟩ es).state.cubePos
          = (match es.head? with
             | some e => e.controllerPos
             | none => Vec3.zero) ∧
      (ARViewerB.processSelects ⟨ARViewerB.initState, 0, 0⟩ es).state.objectPlaced
          = !es.isEmpty) := by
  constructor
  · intro es
    have h := ARViewer.processSelects_stale_spec es ⟨ARViewer.initState, 0, 0⟩ rfl rfl
    simpa using h
  · intro es
    have h := ARViewerB.processSelectsB_spec es ⟨ARViewerB.initState, 0, 0⟩ rfl
    simpa using h

/-- Claim C2 (code-bug evidence): in the ARViewer.tsx effect cleanup the
renderer is disposed — the drawing surface released — strictly before the
animation loop callback is deregistered and strictly before the session
is ended, the reverse of the ordering the claim requires; in the
part_001 cleanup the loop is deregistered before the session ends and
the renderer is never disposed at all. -/
theorem claim2_teardown_order :
    ARViewer.effectCleanup.indexOf TeardownStep.disposeRenderer
        < ARViewer.effectCleanup.indexOf TeardownStep.clearAnimationLoop ∧
    ARViewer.effectCleanup.indexOf TeardownStep.disposeRenderer
        < ARViewer.effectCleanup.indexOf TeardownStep.endXRSession ∧
    TeardownStep.disposeRenderer ∈ ARViewer.effectCleanup ∧
    TeardownStep.clearAnimationLoop ∈ ARViewer.effectCleanup ∧
    TeardownStep.endXRSession ∈ ARViewer.effectCleanup ∧
    TeardownStep.disposeRenderer ∉ ARViewerB.effectCleanup ∧
    ARViewerB.effectCleanup.indexOf TeardownStep.clearAnimationLoop
        < ARViewerB.effectCleanup.indexOf TeardownStep.endXRSession := by
  decide

/-- Claim C3 counterexample: in the part_001 variant the session end
listener does not clear the placement state — starting from an active
state with the cube placed, the end event leaves objectPlaced true while
resetting only the session-active flag. -/
theorem claim3_counterexample :
    (ARViewerB.onSessionEnd
        { ARViewerB.initState with isARSessionActive := true, objectPlaced := true }).objectPlaced
      = true ∧
    (ARViewerB.onSessionEnd
        { ARViewerB.initState with isARSessionActive := true, objectPlaced := true }).isARSessionActive
      = false := by
  exact ⟨rfl, rfl⟩

/-- Claim C3 (amended): in ARViewer.tsx the session end listener resets
both the session-active flag and the placement flag, from every state, so
a subsequent session starts with the object not placed; in the part_001
variant the end listener resets only the session-active flag and leaves
the placement flag exactly as it was. -/
theorem claim3_amended_session_end :
    (∀ s : ARViewer.State,
      (ARViewer.onSessionEnd s).isARSessionActive = false ∧
      (ARViewer.onSessionEnd s).isObjectPlaced = false) ∧
    (∀ s : ARViewerB.State,
      (ARViewerB.onSessionEnd s).isARSessionActive = false ∧
      (ARViewerB.onSessionEnd s).objectPlaced = s.objectPlaced) := by
  exact ⟨fun s => ⟨rfl, rfl⟩, fun s => ⟨rfl, rfl⟩⟩

/-- Claim C4: across one frame of the render loop the rotation of the
object is unchanged while it is not placed, and grows by exactly 1/100
radians on both the x and y axes once it is placed (in the main variant
the guard also requires the object ref, which is non-null after
bootstrap); the rotation never decreases, and the frame does not change
the placement flag.  The code applies no modulus: the embedded angle
grows without bound. -/
theorem claim4_rotation_after_placement :
    (∀ s : ARViewer.State,
      (ARViewer.animationFrame s).rotX
          = s.rotX + (if s.isObjectPlaced && s.objectOk then (1 : Rat) / 100 else 0) ∧
      (ARViewer.animationFrame s).rotY
          = s.rotY + (if s.isObjectPlaced && s.objectOk then (1 : Rat) / 100 else 0) ∧
      (ARViewer.animationFrame s).isObjectPlaced = s.isObjectPlaced ∧
      s.rotX ≤ (ARViewer.animationFrame s).rotX ∧
      s.rotY ≤ (ARViewer.animationFrame s).rotY) ∧
    (∀ s : ARViewerB.State,
      (ARViewerB.animationFrame s).rotX
          = s.rotX + (if s.objectPlaced then (1 : Rat) / 100 else 0) ∧
      (ARViewerB.animationFrame s).rotY
          = s.rotY + (if s.objectPlaced then (1 : Rat) / 100 else 0) ∧
      (ARViewerB.animationFrame s).objectPlaced = s.objectPlaced ∧
      s.rotX ≤ (ARViewerB.animationFrame s).rotX ∧
      s.rotY ≤ (ARViewerB.animationFrame s).rotY) := by
  constructor
  · intro s
    refine ⟨?_, ?_, ?_, ?_, ?_⟩ <;>
      by_cases hg : (s.isObjectPlaced && s.objectOk) = true <;>
        simp [ARViewer.animationFrame, hg]
  · intro s
    refine ⟨?_, ?_, ?_, ?_, ?_⟩ <;>
      by_cases hg : s.objectPlaced = true <;>
        simp [ARViewerB.animationFrame, hg]

/-- Claim C5: the capability probe marks the component unsupported
immediately, without awaiting the query, when navigator.xr is absent;
otherwise it awaits the query and marks supported or unsupported
according to the resolved boolean, and unsupported on rejection.  The
same observable table holds for the part_000 probe, whose supported
state starts false and is left at false when the query is absent or
rejects. -/
theorem claim5_capability_probe :
    ∀ b : Bool,
      ARViewer.capabilityProbe false (ProbeOutcome.resolved b) = (false, false) ∧
      ARViewer.capabilityProbe false ProbeOutcome.rejected = (false, false) ∧
      ARViewer.capabilityProbe true (ProbeOutcome.resolved b) = (true, b) ∧
      ARViewer.capabilityProbe true ProbeOutcome.rejected = (true, false) ∧
      ARShoeApp.checkARSupport false (ProbeOutcome.resolved b) ARShoeApp.initialARSupported
          = false ∧
      ARShoeApp.checkARSupport false ProbeOutcome.rejected ARShoeApp.initialARSupported
          = false ∧
      ARShoeApp.checkARSupport true (ProbeOutcome.resolved b) ARShoeApp.initialARSupported
          = b ∧
      ARShoeApp.checkARSupport true ProbeOutcome.rejected ARShoeApp.initialARSupported
          = false := by
  decide

/-- Claim C6: when the session request fails, both variants log exactly
one diagnostic message, set the session-active flag false, schedule no
retry, and change no other component state: the placement flag, the
supported flag, the object position and rotation, and the camera and
renderer configuration all keep their previous values. -/
theorem claim6_session_failure :
    (∀ s : ARViewer.State,
      (ARViewer.startARSession s SessionOutcome.failure).1.isARSessionActive = false ∧
      (ARViewer.startARSession s SessionOutcome.failure).2.1 = ["Error starting AR session:"] ∧
      (ARViewer.startARSession s SessionOutcome.failure).2.2 = 0 ∧
      (ARViewer.startARSession s SessionOutcome.failure).1.isObjectPlaced = s.isObjectPlaced ∧
      (ARViewer.startARSession s SessionOutcome.failure).1.isARSupported = s.isARSupported ∧
      (ARViewer.startARSession s SessionOutcome.failure).1.sceneHasObject = s.sceneHasObject ∧
      (ARViewer.startARSession s SessionOutcome.failure).1.objectPos = s.objectPos ∧
      (ARViewer.startARSession s SessionOutcome.failure).1.rotX = s.rotX ∧
      (ARViewer.startARSession s SessionOutcome.failure).1.rotY = s.rotY ∧
      (ARViewer.startARSession s SessionOutcome.failure).1.cameraAspect = s.cameraAspect ∧
      (ARViewer.startARSession s SessionOutcome.failure).1.rendererW = s.rendererW ∧
      (ARViewer.startARSession s SessionOutcome.failure).1.rendererH = s.rendererH) ∧
    (∀ s : ARViewerB.State,
      (ARViewerB.startARSession s SessionOutcome.failure).1.isARSessionActive = false ∧
      (ARViewerB.startARSession s SessionOutcome.failure).2.1 = ["Error starting AR session:"] ∧
      (ARViewerB.startARSession s SessionOutcome.failure).2.2 = 0 ∧
      (ARViewerB.startARSession s SessionOutcome.failure).1.objectPlaced = s.objectPlaced ∧
      (ARViewerB.startARSession s SessionOutcome.failure).1.isARSupported = s.isARSupported ∧
      (ARViewerB.startARSession s SessionOutcome.failure).1.sceneHasCube = s.sceneHasCube ∧
      (ARViewerB.startARSession s SessionOutcome.failure).1.cubePos = s.cubePos ∧
      (ARViewerB.startARSession s SessionOutcome.failure).1.rotX = s.rotX ∧
      (ARViewerB.startARSession s SessionOutcome.failure).1.rotY = s.rotY ∧
      (ARViewerB.startARSession s SessionOutcome.failure).1.cameraAspect = s.cameraAspect ∧
      (ARViewerB.startARSession s SessionOutcome.failure).1.rendererW = s.rendererW ∧
      (ARViewerB.startARSession s SessionOutcome.failure).1.rendererH = s.rendererH) := by
  exact ⟨fun s => ⟨rfl, rfl, rfl, rfl, rfl, rfl, rfl, rfl, rfl, rfl, rfl, rfl⟩,
         fun s => ⟨rfl, rfl, rfl, rfl, rfl, rfl, rfl, rfl, rfl, rfl, rfl, rfl⟩⟩

/-- Claim C7: a resize event changes only the camera aspect ratio (with
its projection matrix) and the renderer size — and only when the guarded
refs are non-null — while the placement flag, session flags, object
position and rotation are unchanged by every resize, in both variants. -/
theorem claim7_resize_preserves_state :
    (∀ (s : ARViewer.State) (w h : Rat),
      (ARViewer.handleResize s w h).isObjectPlaced = s.isObjectPlaced ∧
      (ARViewer.handleResize s w h).isARSessionActive = s.isARSessionActive ∧
      (ARViewer.handleResize s w h).isARSupported = s.isARSupported ∧
      (ARViewer.handleResize s w h).sceneHasObject = s.sceneHasObject ∧
      (ARViewer.handleResize s w h).objectPos = s.objectPos ∧
      (ARViewer.handleResize s w h).rotX = s.rotX ∧
      (ARViewer.handleResize s w h).rotY = s.rotY ∧
      (ARViewer.handleResize s w h).cameraAspect
          = (if s.containerOk && s.cameraOk && s.rendererOk then w / h else s.cameraAspect) ∧
      (ARViewer.handleResize s w h).cameraProjAspect
          = (if s.containerOk && s.cameraOk && s.rendererOk then w / h else s.cameraProjAspect) ∧
      (ARViewer.handleResize s w h).rendererW
          = (if s.containerOk && s.cameraOk && s.rendererOk then w else s.rendererW) ∧
      (ARViewer.handleResize s w h).rendererH
          = (if s.containerOk && s.cameraOk && s.rendererOk then h else s.rendererH)) ∧
    (∀ (s : ARViewerB.State) (w h : Rat),
      (ARViewerB.handleResize s w h).objectPlaced = s.objectPlaced ∧
      (ARViewerB.handleResize s w h).isARSessionActive = s.isARSessionActive ∧
      (ARViewerB.handleResize s w h).isARSupported = s.isARSupported ∧
      (ARViewerB.handleResize s w h).sceneHasCube = s.sceneHasCube ∧
      (ARViewerB.handleResize s w h).cubePos = s.cubePos ∧
      (ARViewerB.handleResize s w h).rotX = s.rotX ∧
      (ARViewerB.handleResize s w h).rotY = s.rotY ∧
      (ARViewerB.handleResize s w h).cameraAspect
          = (if s.containerOk then w / h else s.cameraAspect) ∧
      (ARViewerB.handleResize s w h).cameraProjAspect
          = (if s.containerOk then w / h else s.cameraProjAspect) ∧
      (ARViewerB.handleResize s w h).rendererW
          = (if s.containerOk then w else s.rendererW) ∧
      (ARViewerB.handleResize s w h).rendererH
          = (if s.containerOk then h else s.rendererH)) := by
  constructor
  · intro s w h
    by_cases hg : (s.containerOk && s.cameraOk && s.rendererOk) = true
    · simp [ARViewer.handleResize, hg]
    · simp [ARViewer.handleResize, hg]
  · intro s w h
    by_cases hg : s.containerOk = true
    · simp [ARViewerB.handleResize, hg]
    · simp [ARViewerB.handleResize, hg]

/-- Claim C8: whenever the supported state records unsupported, every
variant shows the unsupported banner and does not show the start button,
for all values of the other state flags. -/
theorem claim8_unsupported_banner :
    ∀ a p : Bool,
      (ARViewer.render false a p).showUnsupportedBanner = true ∧
      (ARViewer.render false a p).showStartButton = false ∧
      (ARViewerB.render false a).showUnsupportedBanner = true ∧
      (ARViewerB.render false a).showStartButton = false ∧
      (ARShoeApp.render false).showUnsupportedBanner = true ∧
      (ARShoeApp.render false).showStartButton = false := by
  decide

/-- Claim C9: the modelPath prop is dead configuration in both variants
that accept it: for any two values of modelPath, with the other props
fixed, the whole observable behaviour of the component — initial state,
mesh parameters, rendered UI, and every handler including the teardown
sequence — is identical. -/
theorem claim9_modelPath_dead :
    ∀ (mp1 mp2 : Option String) (c : String) (z : Rat),
      ARViewer.componentBehaviour ⟨mp1, c, z⟩ = ARViewer.componentBehaviour ⟨mp2, c, z⟩ ∧
      ARViewerB.componentBehaviour ⟨mp1⟩ = ARViewerB.componentBehaviour ⟨mp2⟩ := by
  intro mp1 mp2 c z
  exact ⟨rfl, rfl⟩

/-- Claim C10: in the two variants with useState(true), the supported
state starts out true before the asynchronous probe settles, so the
initial render shows the start button and no unsupported banner even on
a platform that will later report unsupported. -/
theorem claim10_initial_supported_true :
    ARViewer.initState.isARSupported = true ∧
    ARViewerB.initState.isARSupported = true ∧
    (ARViewer.render ARViewer.initState.isARSupported ARViewer.initState.isARSessionActive
        ARViewer.initState.isObjectPlaced).showStartButton = true ∧
    (ARViewer.render ARViewer.initState.isARSupported ARViewer.initState.isARSessionActive
        ARViewer.initState.isObjectPlaced).showUnsupportedBanner = false ∧
    (ARViewerB.render ARViewerB.initState.isARSupported
        ARViewerB.initState.isARSessionActive).showStartButton = true ∧
    (ARViewerB.render ARViewerB.initState.isARSupported
        ARViewerB.initState.isARSessionActive).showUnsupportedBanner = false := by
  exact ⟨rfl, rfl, rfl, rfl, rfl, rfl⟩
